import Mathlib

/-!
# Verification of the streaming relay pipeline (telegram_download_bot.py)

A shallow embedding of the pure decision logic of the bot's transfer
pipeline: link validation, metadata/filename resolution, the streaming
download loop's progress-callback policy, the progress throttler, the
upload retry loop, the size gate, the cleanup finalizer, and the size
formatter.  Machine integers are modelled as `Nat` (sizes and byte
counts never overflow in the source, which uses Python integers);
wall-clock times are modelled as whole seconds (`Nat`); exceptions are
modelled with `Except`; header strings are byte-level ASCII.
-/

namespace TelegramDow

/-! ## String helpers shared by several components -/

/-- `needle` occurs as a contiguous substring of the character list
(Python's `in` operator on strings). -/
def listContains (needle : List Char) : List Char → Bool
  | [] => needle.isEmpty
  | c :: rest => needle.isPrefixOf (c :: rest) || listContains needle rest

/-- Python `str.lower()` restricted to ASCII, as used on header values. -/
def lowerChars (l : List Char) : List Char := l.map Char.toLower

/-- Hexadecimal digit value, for percent-decoding. -/
def hexVal? (c : Char) : Option Nat :=
  if '0' ≤ c ∧ c ≤ '9' then some (c.toNat - '0'.toNat)
  else if 'a' ≤ c ∧ c ≤ 'f' then some (c.toNat - 'a'.toNat + 10)
  else if 'A' ≤ c ∧ c ≤ 'F' then some (c.toNat - 'A'.toNat + 10)
  else none

/-- Split a character list on every occurrence of `sep` (Python
`str.split` with a one-character separator). -/
def splitOnChar (sep : Char) (l : List Char) : List (List Char) :=
  l.foldr
    (fun c acc =>
      if c = sep then [] :: acc
      else
        match acc with
        | [] => [[c]]
        | a :: rest => (c :: a) :: rest)
    [[]]

/-- Decode one piece that followed a `%`: its first two characters as a
hex escape when valid, otherwise the `%` is kept verbatim. -/
def decodeEscapePart (part : List Char) : List Char :=
  match part with
  | a :: b :: rest =>
    match hexVal? a, hexVal? b with
    | some ha, some hb => Char.ofNat (16 * ha + hb) :: rest
    | _, _ => '%' :: part
  | _ => '%' :: part

/-- `urllib.parse.unquote` at the byte level, following its algorithm:
split on `%`, then decode the leading two hex digits of every later
piece; an invalid escape is left verbatim.  (Multi-byte UTF-8 escapes
are out of scope; every input in this development is ASCII.) -/
def unquoteChars (l : List Char) : List Char :=
  match splitOnChar '%' l with
  | [] => []
  | first :: parts => first ++ (parts.map decodeEscapePart).flatten

/-- Python `str.strip('"\'')`: remove leading and trailing quote
characters. -/
def isQuoteChar (c : Char) : Bool := c = '"' || c = '\''

def stripQuotes (l : List Char) : List Char :=
  ((l.dropWhile isQuoteChar).reverse.dropWhile isQuoteChar).reverse

/-! ## LinkValidator: the probe phase of `validate_link` (lines 156-191)

The URL has already passed `validators.url` and the scheme check; the
model's input is the outcome of the HEAD probe: either a timeout, or a
response carrying the status and the three headers the code reads
(absent headers are the empty string, `headers.get(..., '')`). -/

inductive ProbeResult where
  | timeout
  | response (status : Nat) (contentType contentDisposition contentLength : String)

/-- Does `content_type.lower()` contain the needle (Python `in`)? -/
def lowerContains (hay : String) (needle : List Char) : Bool :=
  listContains needle (lowerChars hay.data)

def htmlNeedle : List Char := "text/html".data

/-- `validate_link`'s probe phase: returns `(is_valid, message)`. -/
def validate_link : ProbeResult → Bool × String
  | .timeout => (false, "❌ Connection timeout. Please check the URL and try again.")
  | .response status ct cd cl =>
    if 400 ≤ status then
      (false, "❌ URL returned error code: " ++ toString status)
    else if cd ≠ "" ∨ cl ≠ "" then
      (true, "✅ Valid direct download link!")
    else if ¬ (lowerContains ct htmlNeedle = true) then
      (true, "✅ Valid direct download link!")
    else
      (false, "❌ This doesn't appear to be a direct download link. It may be a web page.")

/-! ## StreamingDownloader: `FileDownloader.download_file` (lines 94-133) -/

/-- The status gate at the top of `download_file`:
`if response.status != 200: raise Exception(f"HTTP {response.status}: ...")`. -/
def download_status_gate (status : Nat) : Except String Unit :=
  if status ≠ 200 then
    .error ("HTTP " ++ toString status ++ ": Failed to download file")
  else .ok ()

/-- The chunk loop of `download_file`: given the declared
`Content-Length` (`total_size`, 0 when the header is absent) and the
sizes of the streamed chunks, the list of `(downloaded, total_size)`
arguments passed to `progress_callback` — the code invokes the callback
only under `if progress_callback and total_size > 0`.  (The callback's
third argument, the float percentage, is `downloaded / total_size * 100`
and is derived from these two.) -/
def downloadCallbacksAux (total_size : Nat) : Nat → List Nat → List (Nat × Nat)
  | _, [] => []
  | downloaded, c :: rest =>
    let d := downloaded + c
    (if 0 < total_size then [(d, total_size)] else [])
      ++ downloadCallbacksAux total_size d rest

def downloadCallbacks (total_size : Nat) (chunks : List Nat) : List (Nat × Nat) :=
  downloadCallbacksAux total_size 0 chunks

/-- Running byte totals after each chunk (the claim's "cumulative bytes
written so far", one entry per chunk). -/
def cumulativeBytes (start : Nat) : List Nat → List Nat
  | [] => []
  | c :: rest => (start + c) :: cumulativeBytes (start + c) rest

/-! ## MetadataProbe: size (`get_file_size`, lines 83-91) and the size
formatter (`format_size`, lines 601-610) -/

/-- `get_file_size`: `int(response.headers.get('Content-Length', 0))`;
an absent header yields `0`, an unparsable value raises and the
`except` returns `None`. -/
def get_file_size (contentLength : Option String) : Option Nat :=
  match contentLength with
  | none => some 0
  | some s => s.toNat?

/-- Two-decimal rendering of a rational, for `f"{x:.2f}"`.  (Python
formats with round-half-even; this model rounds half away from zero —
the difference is irrelevant here because no theorem inspects a nonzero
rendering.) -/
def fmtTwoDecimals (q : ℚ) : String :=
  let hundredths : Int := round (q * 100)
  toString (hundredths / 100) ++ "." ++
    (let r := (hundredths % 100).toNat
     (if r < 10 then "0" else "") ++ toString r)

/-- The unit loop of `format_size`. -/
def formatSizeLoop (q : ℚ) : List String → String
  | [] => fmtTwoDecimals q ++ " PB"
  | u :: rest =>
    if q < 1024 then fmtTwoDecimals q ++ " " ++ u
    else formatSizeLoop (q / 1024) rest

/-- `format_size`: `if not size_bytes: return "Unknown"`, else divide
through the unit ladder. -/
def format_size (size_bytes : Nat) : String :=
  if size_bytes = 0 then "Unknown"
  else formatSizeLoop (size_bytes : ℚ) ["B", "KB", "MB", "GB", "TB"]

/-- `handle_link` line 236:
`size_str = format_size(file_size) if file_size else "Unknown"` —
Python truthiness makes both `None` and `0` render as `"Unknown"`. -/
def size_display (file_size : Option Nat) : String :=
  match file_size with
  | none => "Unknown"
  | some n => if 0 < n then format_size n else "Unknown"

/-! ## MetadataProbe: filename (`get_filename_from_url`, lines 60-81)

Inputs are the `Content-Disposition` header (empty string when absent,
`headers.get(..., '')`) and the path component of the redirect-resolved
response URL (`urlparse(str(response.url)).path`). -/

def fnSep : List Char := "filename=".data

/-- Characters after the first occurrence of `filename=`, if any. -/
def afterFirstFnSep : List Char → Option (List Char)
  | [] => none
  | c :: rest =>
    if fnSep.isPrefixOf (c :: rest) then some ((c :: rest).drop fnSep.length)
    else afterFirstFnSep rest

/-- Characters up to the next occurrence of `filename=` (or the end).
Together with `afterFirstFnSep` this is Python's
`content_disposition.split('filename=')[1]`: the segment between the
first and second occurrence of the separator. -/
def upToNextFnSep : List Char → List Char
  | [] => []
  | c :: rest =>
    if fnSep.isPrefixOf (c :: rest) then []
    else c :: upToNextFnSep rest

/-- `pathlib.Path(p).name`: drop trailing slashes, then take what
follows the last slash. -/
def pathName (l : List Char) : List Char :=
  let noTrail := (l.reverse.dropWhile (fun c => c = '/')).reverse
  (noTrail.reverse.takeWhile (fun c => c ≠ '/')).reverse

/-- `get_filename_from_url`: the `Content-Disposition` branch
(`split('filename=')[1].strip('"\'')` then `unquote`), else the name of
the `unquote`d URL path when non-empty, else `None`. -/
def get_filename_from_url (contentDisposition : String) (resolvedPath : String) :
    Option String :=
  if listContains fnSep contentDisposition.data = true then
    some (String.mk (unquoteChars
      (stripQuotes (upToNextFnSep ((afterFirstFnSep contentDisposition.data).getD [])))))
  else
    let filename := String.mk (pathName (unquoteChars resolvedPath.data))
    if filename ≠ "" then some filename else none

/-- `handle_link` lines 225-226: `if not filename: filename =
"downloaded_file"` (both `None` and the empty string fall back). -/
def resolved_display_name (contentDisposition resolvedPath : String) : String :=
  match get_filename_from_url contentDisposition resolvedPath with
  | none => "downloaded_file"
  | some f => if f = "" then "downloaded_file" else f

/-- Modelled from the claim's words, for comparison with
`get_filename_from_url`: the percent-decoded value of the `filename=`
parameter of `Content-Disposition` — parameters are the
semicolon-separated parts of the header, and the parameter's value is
what follows `filename=` within its own part, with surrounding quotes
stripped. -/
def specFilenameParamValue (contentDisposition : String) : Option String :=
  let parts := (splitOnChar ';' contentDisposition.data).map
    (fun p => (p.dropWhile (fun c => c = ' ')).reverse.dropWhile (fun c => c = ' ') |>.reverse)
  match parts.find? (fun p => fnSep.isPrefixOf p) with
  | some p => some (String.mk (unquoteChars (stripQuotes (p.drop fnSep.length))))
  | none => none

/-! ## ProgressThrottler: the `progress_callback` closure inside
`start_download` (lines 329-359)

State is the pair of mutable cells `last_progress[0]` /
`last_update_time[0]`, both initially `0`; a sample is one invocation
`progress_callback(downloaded, total, progress)` where
`progress = downloaded / total * 100` and `current_progress =
int(progress)` (modelled as `downloaded * 100 / total` in `Nat`).
Wall-clock time is in whole seconds. -/

structure ThrottleState where
  lastProgress : Nat
  lastUpdateTime : Nat
  deriving DecidableEq, Repr

structure Sample where
  downloaded : Nat
  time : Nat
  deriving DecidableEq, Repr

structure StepOut where
  state : ThrottleState
  emitted : Bool
  viaTime : Bool
  deriving DecidableEq, Repr

/-- The 2%-bucket of a sample: `(current_progress // 2) * 2`. -/
def bucketOf (total : Nat) (s : Sample) : Nat :=
  s.downloaded * 100 / total / 2 * 2

/-- One invocation of `progress_callback`: the bucket rule (known
total) or the 10 MB rule (unknown total), then the 5-second liveness
rule, which also re-synchronizes the watermark; on emission the
last-update time is set to the sample time. -/
def throttleStep (total : Nat) (st : ThrottleState) (s : Sample) : StepOut :=
  let currentProgress := s.downloaded * 100 / total
  let progressStep := currentProgress / 2 * 2
  let pass1 : Bool × Nat :=
    if 0 < total then
      if progressStep ≠ st.lastProgress ∧ 2 ≤ progressStep then (true, progressStep)
      else (false, st.lastProgress)
    else
      if st.lastProgress + 10 * 1024 * 1024 < s.downloaded then (true, s.downloaded)
      else (false, st.lastProgress)
  let viaTime : Bool := decide (5 ≤ s.time - st.lastUpdateTime)
  let pass2 : Bool × Nat :=
    if viaTime then (true, if 0 < total then currentProgress else s.downloaded)
    else pass1
  if pass2.1 then ⟨⟨pass2.2, s.time⟩, true, viaTime⟩
  else ⟨⟨pass2.2, st.lastUpdateTime⟩, false, viaTime⟩

structure Emission where
  bucket : Nat
  time : Nat
  viaTime : Bool
  deriving DecidableEq, Repr

/-- The emissions (UI updates) produced by a run of samples. -/
def throttleRun (total : Nat) (st : ThrottleState) : List Sample → List Emission
  | [] => []
  | s :: rest =>
    let out := throttleStep total st s
    (if out.emitted then [⟨bucketOf total s, s.time, out.viaTime⟩] else [])
      ++ throttleRun total out.state rest

/-! ## RelayUploader: the retry loop of `start_download` (lines 462-531)

`attempt i` is the outcome of the `i`-th `send_document` call (0-based);
an error carries `type(upload_error).__name__`.  The loop variable
`remaining` stands for `max_retries - retry_count`, so the `while`
condition `retry_count < max_retries` is `0 < remaining`, and the inner
re-try condition `retry_count + 1 < max_retries` is `1 < remaining`. -/

def max_retries : Nat := 3

deriving instance DecidableEq for Except

structure RetryOut where
  attempts : Nat
  waits : List Nat
  result : Except String Unit
  deriving DecidableEq, Repr

def uploadLoopAux (attempt : Nat → Except String Unit) :
    Nat → Nat → List Nat → RetryOut
  | retryCount, 0, waits => ⟨retryCount, waits, .ok ()⟩
  | retryCount, remaining + 1, waits =>
    match attempt retryCount with
    | .ok () => ⟨retryCount + 1, waits, .ok ()⟩
    | .error e =>
      match remaining with
      | 0 => ⟨retryCount + 1, waits, .error e⟩
      | r + 1 =>
        uploadLoopAux attempt (retryCount + 1) (r + 1)
          (waits ++ [(retryCount + 1) * 10])

/-- The whole retry loop: up to `max_retries` attempts, a backoff wait
of `retry_count * 10` seconds after each non-final failure, and the
last error re-raised after exhaustion. -/
def runUpload (attempt : Nat → Except String Unit) : RetryOut :=
  uploadLoopAux attempt 0 max_retries []

/-! ## TransferCoordinator: `start_download` (lines 311-586)

The pipeline body runs under `try/except/finally`; the model records
what the `finally` block can observe: whether the local variable
`filepath` was assigned (it is assigned only when `download_file`
*returns*), and whether the artifact file exists on disk (the file is
created as soon as `download_file` opens it for writing, so a
mid-stream failure leaves a partial file with `filepath` still
`None`). -/

def MAX_TELEGRAM_SIZE : Nat := 2 * 1024 * 1024 * 1024

inductive DlOutcome where
  | completed (size : Nat)    -- download returned; `size` is the measured on-disk size
  | failedBeforeFile          -- raised before the artifact file was opened
  | failedMidStream (written : Nat)  -- raised after the file was opened

structure Scenario where
  dl : DlOutcome
  attempt : Nat → Except String Unit

structure PipeResult where
  artifactOnDisk : Bool
  sessionPresent : Bool
  fileDeletes : Nat
  sessionDeletes : Nat
  sendCalls : Nat
  tooLargeReported : Bool
  deriving DecidableEq, Repr

/-- The `try` body of `start_download`: download, `stat` the size,
size gate (`if file_size > MAX_TELEGRAM_SIZE: ... return`), then the
upload retry loop.  Returns (`filepath` variable assigned?, artifact
file on disk?, number of `send_document` calls, "too large" reported?).
Exceptions — download failures and the re-raised exhausted upload
error — are caught by the `except` block and flow to `finally` just
like normal returns. -/
def startDownloadBody (sc : Scenario) : Bool × Bool × Nat × Bool :=
  match sc.dl with
  | .failedBeforeFile => (false, false, 0, false)
  | .failedMidStream _ => (false, true, 0, false)
  | .completed size =>
    if MAX_TELEGRAM_SIZE < size then (true, true, 0, true)
    else (true, true, (runUpload sc.attempt).attempts, false)

/-- `start_download` including its `finally` block (lines 575-586):
delete the artifact only when `filepath` is assigned *and* the file
exists, then delete the requester's session entry (the session is
present when the pipeline starts). -/
def start_download (sc : Scenario) : PipeResult :=
  match startDownloadBody sc with
  | (fpAssigned, onDisk, sends, tooLarge) =>
    let delFile := fpAssigned && onDisk
    { artifactOnDisk := onDisk && !delFile
      sessionPresent := false
      fileDeletes := if delFile then 1 else 0
      sessionDeletes := 1
      sendCalls := sends
      tooLargeReported := tooLarge }

/-! # Theorems -/

/-! ## C7 — link validation -/

lemma status_reason_ne_timeout_reason (status : Nat) :
    ("❌ URL returned error code: " ++ toString status : String) ≠
      "❌ Connection timeout. Please check the URL and try again." := by
  intro h
  have h2 := congrArg (fun t : String => t.data[2]?) h
  simp only [String.data_append] at h2
  rw [List.getElem?_append_left (by decide)] at h2
  revert h2
  decide

/-- C7: link validation accepts exactly when the HEAD probe's status is
below 400 and at least one of `Content-Disposition` present,
`Content-Length` present, or a content type not containing `text/html`
holds; it rejects on status ≥ 400; the spec's two concrete header
examples behave as stated; and a probe timeout is rejected with a
reason distinct from the HTTP-error-status reason. -/
theorem validate_link_probe_characterisation :
    (∀ (status : Nat) (ct cd cl : String),
      (validate_link (.response status ct cd cl)).1 = true ↔
        status < 400 ∧ (cd ≠ "" ∨ cl ≠ "" ∨ lowerContains ct htmlNeedle = false)) ∧
    (validate_link (.response 200 "application/zip" "" "1048576")).1 = true ∧
    (validate_link (.response 200 "text/html; charset=utf-8" "" "")).1 = false ∧
    (validate_link .timeout).1 = false ∧
    (∀ (status : Nat) (ct cd cl : String), 400 ≤ status →
      (validate_link (.response status ct cd cl)).1 = false ∧
      (validate_link (.response status ct cd cl)).2 ≠ (validate_link .timeout).2) := by
  refine ⟨?_, by decide, by decide, by decide, ?_⟩
  · intro status ct cd cl
    simp only [validate_link]
    by_cases h4 : 400 ≤ status
    · simp [if_pos h4, Nat.not_lt.mpr h4]
    · rw [if_neg h4]
      have hlt : status < 400 := Nat.not_le.mp h4
      by_cases hcd : cd ≠ "" ∨ cl ≠ ""
      · simp [if_pos hcd, hlt]
        tauto
      · rw [if_neg hcd]
        push_neg at hcd
        by_cases hhtml : lowerContains ct htmlNeedle = true
        · simp [hhtml, hcd.1, hcd.2, hlt]
        · simp [hhtml, hlt, hcd.1, hcd.2]
  · intro status ct cd cl h4
    constructor
    · simp [validate_link, if_pos h4]
    · simp only [validate_link, if_pos h4]
      exact status_reason_ne_timeout_reason status

/-- Witness for C7 at a concrete probe outcome (status 404). -/
theorem validate_link_probe_characterisation_witness :
    (validate_link (.response 404 "text/html" "" "")).1 = false ∧
    (validate_link (.response 404 "text/html" "" "")).2 ≠ (validate_link .timeout).2 :=
  validate_link_probe_characterisation.2.2.2.2 404 "text/html" "" "" (by decide)

/-! ## C10 — absent Content-Length probes as 0 and renders "Unknown" -/

/-- C10: when the `Content-Length` header is absent, `get_file_size`
returns `0` rather than an absent value; `format_size` renders `0` as
the literal `"Unknown"`, and the caller's display renders a declared
size of exactly `0` identically to an unknown (absent) size. -/
theorem zero_size_displays_unknown :
    get_file_size none = some 0 ∧
    get_file_size none ≠ none ∧
    format_size 0 = "Unknown" ∧
    size_display (some 0) = "Unknown" ∧
    size_display none = "Unknown" ∧
    size_display (some 0) = size_display none := by decide

/-! ## C6 — the download status gate accepts only 200, not all of 2xx -/

/-- C6 counterexample: status 204 is in the 2xx range, yet
`download_file`'s status gate fails the download instead of streaming
the body — the code's test is `status != 200`, not "non-2xx". -/
theorem download_status_2xx_refuted :
    (200 ≤ 204 ∧ 204 < 300) ∧
    download_status_gate 204 = .error "HTTP 204: Failed to download file" := by decide

/-- C6 amended: the download proceeds exactly on status 200; every
other status — including other 2xx codes — fails with an error message
carrying that status code. -/
theorem download_status_only_200 (status : Nat) :
    (status = 200 → download_status_gate status = .ok ()) ∧
    (status ≠ 200 →
      download_status_gate status =
        .error ("HTTP " ++ toString status ++ ": Failed to download file")) := by
  constructor
  · intro h
    simp [download_status_gate, h]
  · intro h
    simp [download_status_gate, h]

/-- Witness for C6's amended statement at statuses 200 and 404. -/
theorem download_status_only_200_witness :
    download_status_gate 200 = .ok () ∧
    download_status_gate 404 =
      .error ("HTTP " ++ toString 404 ++ ": Failed to download file") :=
  ⟨(download_status_only_200 200).1 rfl, (download_status_only_200 404).2 (by decide)⟩

/-! ## C8 — filename resolution -/

/-- C8 counterexample: for `Content-Disposition: attachment;
filename="a.zip"; x=1` the code resolves `a.zip"; x=1` (everything
after `filename=`, quote-stripped only at the ends), while the claim's
"value of the `filename=` parameter" is `a.zip`. -/
theorem filename_param_refuted :
    get_filename_from_url "attachment; filename=\"a.zip\"; x=1" "/x" =
      some "a.zip\"; x=1" ∧
    specFilenameParamValue "attachment; filename=\"a.zip\"; x=1" = some "a.zip" ∧
    some ("a.zip\"; x=1" : String) ≠ some ("a.zip" : String) := by decide

/-- C8 amended: when `Content-Disposition` contains `filename=`, the
resolved name is the percent-decoding of the text after the first
`filename=` (up to any next `filename=`) with surrounding quote
characters stripped — not just the parameter's value; otherwise the
last segment of the percent-decoded URL path (decoding happens before
the segment is taken, so `%2F` introduces a new segment) when
non-empty; otherwise absent, and the caller substitutes
`"downloaded_file"`.  The claim's two concrete examples resolve as it
states. -/
theorem filename_resolution_amended :
    get_filename_from_url "attachment; filename=\"a b.zip\"" "/x" = some "a b.zip" ∧
    get_filename_from_url "" "/dir/report%20final.pdf" = some "report final.pdf" ∧
    get_filename_from_url "" "/dir/a%2Fb.pdf" = some "b.pdf" ∧
    get_filename_from_url "" "/" = none ∧
    resolved_display_name "" "/" = "downloaded_file" ∧
    resolved_display_name "attachment; filename=\"a b.zip\"" "/x" = "a b.zip" := by
  decide

/-! ## C4 — the progress callback is skipped when the total is unknown -/

/-- C4 counterexample: a download of one 5-byte chunk with a declared
total of 0 invokes the progress callback zero times, not once per
chunk — the loop guards the call with `total_size > 0`. -/
theorem download_callback_unknown_total_refuted :
    downloadCallbacks 0 [5] = [] ∧
    ¬ (downloadCallbacks 0 [5]).length = [5].length := by decide

lemma downloadCallbacksAux_pos (total : Nat) (h : 0 < total) :
    ∀ (chunks : List Nat) (start : Nat),
      downloadCallbacksAux total start chunks =
        (cumulativeBytes start chunks).map (fun d => (d, total)) := by
  intro chunks
  induction chunks with
  | nil => intro start; rfl
  | cons c rest ih =>
    intro start
    simp [downloadCallbacksAux, cumulativeBytes, if_pos h, ih]

lemma downloadCallbacksAux_zero :
    ∀ (chunks : List Nat) (start : Nat), downloadCallbacksAux 0 start chunks = [] := by
  intro chunks
  induction chunks with
  | nil => intro start; rfl
  | cons c rest ih => intro start; simp [downloadCallbacksAux, ih]

/-- C4 amended: the downloader invokes the progress callback after
every chunk write — passing the cumulative bytes written so far and the
declared total — only when the declared total is positive; when the
declared total is absent or zero the callback is never invoked. -/
theorem download_callback_amended (total : Nat) (chunks : List Nat) :
    (0 < total →
      downloadCallbacks total chunks =
        (cumulativeBytes 0 chunks).map (fun d => (d, total))) ∧
    downloadCallbacks 0 chunks = [] :=
  ⟨fun h => downloadCallbacksAux_pos total h chunks 0,
   downloadCallbacksAux_zero chunks 0⟩

/-- Witness for C4's amended statement on two concrete chunks. -/
theorem download_callback_amended_witness :
    downloadCallbacks 7 [3, 4] = (cumulativeBytes 0 [3, 4]).map (fun d => (d, 7)) :=
  (download_callback_amended 7 [3, 4]).1 (by decide)

/-! ## C3 — upload retry exhaustion -/

/-- C3: when every upload attempt fails, the loop makes exactly 3
attempts, waits 10 seconds after the first failure and 20 after the
second (no wait after the third), for 30 seconds of backoff in total,
and the error propagated after exhaustion is the third attempt's. -/
theorem upload_retry_exhaustion (attempt : Nat → Except String Unit)
    (e0 e1 e2 : String) (h0 : attempt 0 = .error e0) (h1 : attempt 1 = .error e1)
    (h2 : attempt 2 = .error e2) :
    runUpload attempt = ⟨3, [10, 20], .error e2⟩ ∧
    (runUpload attempt).waits.sum = 30 := by
  have hrun : runUpload attempt = ⟨3, [10, 20], .error e2⟩ := by
    simp [runUpload, max_retries, uploadLoopAux, h0, h1, h2]
  exact ⟨hrun, by rw [hrun]; rfl⟩

/-- Witness for C3: a run whose three attempts all fail. -/
theorem upload_retry_exhaustion_witness :
    runUpload (fun _ => .error "TimedOut") = ⟨3, [10, 20], .error "TimedOut"⟩ :=
  (upload_retry_exhaustion (fun _ => .error "TimedOut")
    "TimedOut" "TimedOut" "TimedOut" rfl rfl rfl).1

/-! ## C2 — the 2 GiB size gate -/

lemma runUpload_attempts_pos (attempt : Nat → Except String Unit) :
    1 ≤ (runUpload attempt).attempts := by
  cases h0 : attempt 0 with
  | ok u =>
    cases u
    simp [runUpload, max_retries, uploadLoopAux, h0]
  | error e0 =>
    cases h1 : attempt 1 with
    | ok u =>
      cases u
      simp [runUpload, max_retries, uploadLoopAux, h0, h1]
    | error e1 =>
      cases h2 : attempt 2 with
      | ok u =>
        cases u
        simp [runUpload, max_retries, uploadLoopAux, h0, h1, h2]
      | error e2 =>
        simp [runUpload, max_retries, uploadLoopAux, h0, h1, h2]

/-- C2: when the measured on-disk size exceeds 2 GiB the pipeline
reports "too large" and never calls `send_document`; at 2 GiB or below
it proceeds to upload (at least one `send_document` call). -/
theorem size_gate_blocks_upload (size : Nat) (attempt : Nat → Except String Unit) :
    (MAX_TELEGRAM_SIZE < size →
      (start_download ⟨.completed size, attempt⟩).sendCalls = 0 ∧
      (start_download ⟨.completed size, attempt⟩).tooLargeReported = true) ∧
    (size ≤ MAX_TELEGRAM_SIZE →
      1 ≤ (start_download ⟨.completed size, attempt⟩).sendCalls ∧
      (start_download ⟨.completed size, attempt⟩).tooLargeReported = false) := by
  constructor
  · intro h
    simp [start_download, startDownloadBody, if_pos h]
  · intro h
    have hn : ¬ MAX_TELEGRAM_SIZE < size := Nat.not_lt.mpr h
    simp [start_download, startDownloadBody, if_neg hn, runUpload_attempts_pos]

/-- Witness for C2 one byte above the limit and exactly at the limit. -/
theorem size_gate_blocks_upload_witness :
    ((start_download ⟨.completed (MAX_TELEGRAM_SIZE + 1), fun _ => .ok ()⟩).sendCalls = 0 ∧
      (start_download ⟨.completed (MAX_TELEGRAM_SIZE + 1), fun _ => .ok ()⟩).tooLargeReported
        = true) ∧
    (1 ≤ (start_download ⟨.completed MAX_TELEGRAM_SIZE, fun _ => .ok ()⟩).sendCalls ∧
      (start_download ⟨.completed MAX_TELEGRAM_SIZE, fun _ => .ok ()⟩).tooLargeReported
        = false) :=
  ⟨(size_gate_blocks_upload (MAX_TELEGRAM_SIZE + 1) (fun _ => .ok ())).1
      (Nat.lt_succ_self MAX_TELEGRAM_SIZE),
   (size_gate_blocks_upload MAX_TELEGRAM_SIZE (fun _ => .ok ())).2
      (Nat.le_refl MAX_TELEGRAM_SIZE)⟩

/-! ## C1 — terminal cleanup -/

/-- C1: the `finally` cleanup deletes the artifact only when the local
`filepath` variable was assigned, i.e. only when `download_file`
*returned*.  A download that fails mid-stream — after the artifact file
was opened for writing — reaches the terminal download-failure outcome
with the partial artifact still on disk and zero file deletions, while
the session entry is removed as the claim states.  For contrast, a
completed download (here of 10 bytes) does get its artifact deleted
exactly once. -/
theorem cleanup_misses_partial_artifact :
    (start_download ⟨.failedMidStream 1, fun _ => .ok ()⟩).artifactOnDisk = true ∧
    (start_download ⟨.failedMidStream 1, fun _ => .ok ()⟩).fileDeletes = 0 ∧
    (start_download ⟨.failedMidStream 1, fun _ => .ok ()⟩).sessionPresent = false ∧
    (start_download ⟨.failedMidStream 1, fun _ => .ok ()⟩).sessionDeletes = 1 ∧
    (start_download ⟨.completed 10, fun _ => .ok ()⟩).artifactOnDisk = false ∧
    (start_download ⟨.completed 10, fun _ => .ok ()⟩).fileDeletes = 1 ∧
    (start_download ⟨.completed 10, fun _ => .ok ()⟩).sessionDeletes = 1 := by decide

/-! ## C5 — progress throttling -/

lemma bucketOf_mono (total : Nat) {a b : Sample} (h : a.downloaded ≤ b.downloaded) :
    bucketOf total a ≤ bucketOf total b := by
  unfold bucketOf
  have h1 : a.downloaded * 100 ≤ b.downloaded * 100 := Nat.mul_le_mul_right _ h
  have h2 := Nat.div_le_div_right (c := total) h1
  have h3 := Nat.div_le_div_right (c := 2) h2
  exact Nat.mul_le_mul_right _ h3

lemma throttleStep_viaTime_emit (total : Nat) (st : ThrottleState) (s : Sample)
    (h : 5 ≤ s.time - st.lastUpdateTime) :
    (throttleStep total st s).emitted = true ∧ (throttleStep total st s).viaTime = true := by
  simp only [throttleStep, decide_eq_true h]
  simp

lemma throttleStep_bucket_emit (total : Nat) (st : ThrottleState) (s : Sample)
    (htot : 0 < total) (hvt : ¬ 5 ≤ s.time - st.lastUpdateTime)
    (hb : bucketOf total s ≠ st.lastProgress ∧ 2 ≤ bucketOf total s) :
    throttleStep total st s = ⟨⟨bucketOf total s, s.time⟩, true, false⟩ := by
  simp only [throttleStep, decide_eq_false hvt, bucketOf] at *
  rw [if_pos htot, if_pos hb]
  simp [if_pos htot]

lemma throttleStep_bucket_skip (total : Nat) (st : ThrottleState) (s : Sample)
    (htot : 0 < total) (hvt : ¬ 5 ≤ s.time - st.lastUpdateTime)
    (hb : ¬ (bucketOf total s ≠ st.lastProgress ∧ 2 ≤ bucketOf total s)) :
    throttleStep total st s = ⟨st, false, false⟩ := by
  simp only [throttleStep, decide_eq_false hvt, bucketOf] at *
  rw [if_pos htot, if_neg hb]
  simp [if_pos htot]

/-- With a known positive total, non-decreasing byte counts, and no
emission from the 5-second liveness rule, the emitted buckets increase
strictly along the run, and every emitted bucket lies above the
starting watermark. -/
lemma throttleRun_strictMono (total : Nat) (htot : 0 < total) :
    ∀ (samples : List Sample) (st : ThrottleState),
      samples.Pairwise (fun a b => a.downloaded ≤ b.downloaded) →
      (∀ e ∈ throttleRun total st samples, e.viaTime = false) →
      (∀ s' ∈ samples, st.lastProgress ≤ bucketOf total s') →
      (∀ e ∈ throttleRun total st samples, st.lastProgress < e.bucket) ∧
      ((throttleRun total st samples).map Emission.bucket).Pairwise (· < ·) := by
  intro samples
  induction samples with
  | nil =>
    intro st _ _ _
    exact ⟨fun e he => absurd he (List.not_mem_nil e), by simp [throttleRun]⟩
  | cons s rest ih =>
    intro st hpw hnt hle
    obtain ⟨hhead, hrest⟩ := List.pairwise_cons.mp hpw
    by_cases hvt : 5 ≤ s.time - st.lastUpdateTime
    · exfalso
      obtain ⟨he, hv⟩ := throttleStep_viaTime_emit total st s hvt
      have hmem : (⟨bucketOf total s, s.time, (throttleStep total st s).viaTime⟩ : Emission) ∈
          throttleRun total st (s :: rest) := by
        simp only [throttleRun, he, if_pos]
        exact List.mem_append_left _ (List.mem_singleton_self _)
      have := hnt _ hmem
      rw [hv] at this
      simp at this
    · by_cases hb : bucketOf total s ≠ st.lastProgress ∧ 2 ≤ bucketOf total s
      · have hstep := throttleStep_bucket_emit total st s htot hvt hb
        have hrun : throttleRun total st (s :: rest) =
            ⟨bucketOf total s, s.time, false⟩ ::
              throttleRun total ⟨bucketOf total s, s.time⟩ rest := by
          simp [throttleRun, hstep]
        rw [hrun] at hnt ⊢
        have hle' : ∀ s' ∈ rest, (⟨bucketOf total s, s.time⟩ : ThrottleState).lastProgress ≤
            bucketOf total s' := fun s' hs' => bucketOf_mono total (hhead s' hs')
        have hnt' : ∀ e ∈ throttleRun total ⟨bucketOf total s, s.time⟩ rest,
            e.viaTime = false := fun e he => hnt e (List.mem_cons_of_mem _ he)
        obtain ⟨ih1, ih2⟩ := ih ⟨bucketOf total s, s.time⟩ hrest hnt' hle'
        have hlt : st.lastProgress < bucketOf total s :=
          Nat.lt_of_le_of_ne (hle s (List.mem_cons_self s rest)) (Ne.symm hb.1)
        constructor
        · intro e he
          rcases List.mem_cons.mp he with rfl | he'
          · exact hlt
          · exact Nat.lt_trans hlt (ih1 e he')
        · rw [List.map_cons]
          refine List.pairwise_cons.mpr ⟨?_, ih2⟩
          intro b hbmem
          obtain ⟨e, he, rfl⟩ := List.mem_map.mp hbmem
          exact ih1 e he
      · have hstep := throttleStep_bucket_skip total st s htot hvt hb
        have hrun : throttleRun total st (s :: rest) = throttleRun total st rest := by
          simp [throttleRun, hstep]
        rw [hrun] at hnt ⊢
        exact ih st hrest hnt (fun s' hs' => hle s' (List.mem_cons_of_mem _ hs'))

/-- C5 counterexample: with total 1000, two monotone samples at 70 then
75 bytes (7% both, bucket 6) one second apart both emit — the first via
the 5-second rule, which re-synchronizes the watermark to the raw
percentage 7 rather than the bucket 6, so the second sample sees
`6 ≠ 7` and emits again in the same 2%-bucket. -/
theorem throttle_bucket_duplicate :
    (throttleRun 1000 ⟨0, 0⟩ [⟨70, 1000⟩, ⟨75, 1001⟩]).map Emission.bucket = [6, 6] ∧
    ¬ ((throttleRun 1000 ⟨0, 0⟩ [⟨70, 1000⟩, ⟨75, 1001⟩]).map Emission.bucket).Nodup := by
  decide

/-- C5 amended: with a known positive total and non-decreasing byte
counts, the throttler emits at most one update per distinct 2%-bucket
*provided no emission is triggered by the 5-second liveness rule*; and,
unconditionally, any sample arriving at least 5 seconds after the last
emission triggers an emission. -/
theorem throttle_amended :
    (∀ (total : Nat) (samples : List Sample), 0 < total →
      samples.Pairwise (fun a b => a.downloaded ≤ b.downloaded) →
      (∀ e ∈ throttleRun total ⟨0, 0⟩ samples, e.viaTime = false) →
      ((throttleRun total ⟨0, 0⟩ samples).map Emission.bucket).Nodup) ∧
    (∀ (total : Nat) (st : ThrottleState) (s : Sample),
      5 ≤ s.time - st.lastUpdateTime → (throttleStep total st s).emitted = true) := by
  constructor
  · intro total samples htot hpw hnt
    have h := (throttleRun_strictMono total htot samples ⟨0, 0⟩ hpw hnt
      (fun s' _ => Nat.zero_le _)).2
    exact h.imp (fun hlt => Nat.ne_of_lt hlt)
  · intro total st s h
    exact (throttleStep_viaTime_emit total st s h).1

/-- Witness for C5's amended statement: a concrete two-sample monotone
run with no liveness-rule emission, and a concrete sample 6 seconds
after the last emission. -/
theorem throttle_amended_witness :
    ((throttleRun 100 ⟨0, 0⟩ [⟨7, 1⟩, ⟨30, 2⟩]).map Emission.bucket).Nodup ∧
    (throttleStep 100 ⟨0, 0⟩ ⟨1, 6⟩).emitted = true :=
  ⟨throttle_amended.1 100 [⟨7, 1⟩, ⟨30, 2⟩] (by decide) (by decide) (by decide),
   throttle_amended.2 100 ⟨0, 0⟩ ⟨1, 6⟩ (by decide)⟩

end TelegramDow
